import Mathlib

/-!
Shallow embedding of the audit-pipeline core of the `ai-agency` backend:
the pure scoring engine (`app/services/scoring.py`), the influencer
discovery aggregator (`app/data_sources/instagram.py` and
`app/data_sources/mock_data.py`), and the audit pipeline orchestrator
(`app/services/audit_orchestrator.py`).

Modelling conventions:
* Python numbers are modelled as exact rationals (`ℚ`) and integers (`ℤ`).
* Python `round(x, n)` is modelled as round-half-to-even at `n` decimal
  digits (`pyRound`).
* Python `None` becomes `Option.none`; `x or 0` on an optional count
  becomes `Option.getD 0` (both map `None` to `0` and keep `0` at `0`).
* Fallible effects (a scraping method raising, a DB commit raising) are
  modelled with `Except String`; the orchestrator's exception handler is
  modelled explicitly in `runSteps`.
* Profile fields not consumed by any embedded function (profile picture
  URL, verification flags, raw payload) are omitted from the record types.
-/

namespace AiAgency

/-- Python's `round(x, n)`: round to `n` decimal digits, ties to even. -/
def pyRound (n : Nat) (q : ℚ) : ℚ :=
  let s : ℚ := q * 10 ^ n
  let f : ℤ := ⌊s⌋
  let r : ℚ := s - f
  let k : ℤ :=
    if r < 1 / 2 then f
    else if 1 / 2 < r then f + 1
    else if f % 2 = 0 then f else f + 1
  (k : ℚ) / 10 ^ n

/-- One recent post of an influencer (`app/data_sources/schemas.py`,
`PostData`). The timestamp is seconds since some epoch, absent when the
source data was unparsable. -/
structure PostData where
  post_id : String
  post_type : String
  caption : String
  likes_count : ℤ
  comments_count : ℤ
  timestamp : Option ℤ
  hashtags : List String
deriving DecidableEq, Repr

/-- A scraped influencer profile (`app/data_sources/schemas.py`,
`InfluencerProfileResult`), restricted to the fields the scoring engine
reads. -/
structure InfluencerProfileResult where
  username : String
  biography : Option String := none
  followers_count : Option ℤ := none
  following_count : Option ℤ := none
  posts_count : Option ℤ := none
  recent_posts : List PostData := []
deriving DecidableEq, Repr

/-- Result record of `calculate_engagement_metrics`. -/
structure EngagementMetrics where
  engagement_rate : ℚ
  avg_likes : ℚ
  avg_comments : ℚ
deriving DecidableEq, Repr

/-- `scoring.calculate_engagement_metrics`: engagement rate and average
likes/comments over the recent posts. -/
def calculate_engagement_metrics (profile : InfluencerProfileResult) :
    EngagementMetrics :=
  let posts := profile.recent_posts
  let followers : ℤ := profile.followers_count.getD 0
  if posts.isEmpty ∨ followers = 0 then
    { engagement_rate := 0, avg_likes := 0, avg_comments := 0 }
  else
    let total_likes : ℤ := (posts.map (·.likes_count)).sum
    let total_comments : ℤ := (posts.map (·.comments_count)).sum
    let n : ℕ := posts.length
    let avg_likes : ℚ := (total_likes : ℚ) / n
    let avg_comments : ℚ := (total_comments : ℚ) / n
    let engagement_rate : ℚ := (avg_likes + avg_comments) / (followers : ℚ)
    { engagement_rate := pyRound 6 engagement_rate
      avg_likes := pyRound 2 avg_likes
      avg_comments := pyRound 2 avg_comments }

/-- One entry of the `influencer_scores` list consumed by
`calculate_health_score`: a Python dict whose four keys may each be
absent (`Option.none` models a missing key). -/
structure ScoreBundle where
  fraud_score : Option ℚ := none
  content_quality_score : Option ℚ := none
  audience_quality_score : Option ℚ := none
  engagement_rate : Option ℚ := none
deriving DecidableEq, Repr

/-- The per-influencer composite accumulated by the loop body of
`calculate_health_score`. -/
def healthIndividual (scores : ScoreBundle) : ℚ :=
  let fraud := scores.fraud_score.getD 0.5
  let content := scores.content_quality_score.getD 0
  let audience := scores.audience_quality_score.getD 0
  let engagement := scores.engagement_rate.getD 0
  let normalized_engagement := min (engagement / 0.10) 1
  (1 - fraud) * 0.30 + content * 0.25 + audience * 0.25
    + normalized_engagement * 0.20

/-- `scoring.calculate_health_score`: mean per-influencer composite,
times 100, rounded to 1 decimal; `0.0` on the empty list. -/
def calculate_health_score (influencer_scores : List ScoreBundle) : ℚ :=
  if influencer_scores.isEmpty then 0
  else
    let total : ℚ :=
      influencer_scores.foldl (fun acc s => acc + healthIndividual s) 0
    let avg := total / (influencer_scores.length : ℚ)
    pyRound 1 (avg * 100)

/-- ASCII approximation of the `\w` class used by the `#(\w+)` regex in
`InstagramDataSource._extract_hashtags`. -/
def isWordChar (c : Char) : Bool :=
  c.isAlphanum || c = '_'

/-- `re.split(r"[._]", handle)`: split a character stream at every `.`
or `_`, keeping empty segments, with `cur` the (reversed) segment built
so far. -/
def splitSeps : List Char → List Char → List (List Char)
  | cur, [] => [cur.reverse]
  | cur, c :: rest =>
    if c = '.' || c = '_' then cur.reverse :: splitSeps [] rest
    else splitSeps (c :: cur) rest

/-- `re.findall` of the pattern `#(\w+)` over a character stream, as a
single left-to-right scan: outside a match (`state = none`) a `#` opens
a candidate tag; inside a match word characters accumulate (reversed)
in `state = some acc`; a non-word character closes the run, which is
emitted when non-empty, and is itself rescanned as a possible `#`. -/
def findTagRuns : List Char → Option (List Char) → List (List Char)
  | [], none => []
  | [], some acc => if acc.isEmpty then [] else [acc.reverse]
  | c :: rest, none =>
    if c = '#' then findTagRuns rest (some []) else findTagRuns rest none
  | c :: rest, some acc =>
    if isWordChar c then findTagRuns rest (some (c :: acc))
    else
      let tail := if c = '#' then findTagRuns rest (some []) else findTagRuns rest none
      if acc.isEmpty then tail else acc.reverse :: tail

/-- The seen-set deduplication loop at the end of
`InstagramDataSource._extract_hashtags`. -/
def dedupSeen (seen : List String) : List String → List String
  | [] => []
  | h :: t =>
    if h ∈ seen then dedupSeen seen t
    else h :: dedupSeen (h :: seen) t

/-- Spec-side formulation of first-seen-order deduplication: keep each
element's first occurrence, dropping all later duplicates. -/
def dedupeFirstSeen : List String → List String
  | [] => []
  | x :: rest => x :: dedupeFirstSeen (rest.filter (· ≠ x))
termination_by l => l.length
decreasing_by
  have := List.length_filter_le (fun y => decide (y ≠ h)) t
  simp only [List.length_cons]
  omega

/-- `InstagramDataSource._extract_hashtags`: lowercased handle segments
(split on `.`/`_`) longer than 2 characters, plus `#word` tokens from
the bio, deduplicated in first-seen order and capped at `_MAX_HASHTAGS
= 5` entries. -/
def extract_hashtags (handle : String) (bio : Option String) : List String :=
  let parts := splitSeps [] handle.data
  let fromHandle :=
    (parts.filter fun p => 2 < p.length).map fun p => (p.map Char.toLower).asString
  let fromBio :=
    match bio with
    | none => []
    | some b => (findTagRuns b.data none).map fun h => (h.map Char.toLower).asString
  (dedupSeen [] (fromHandle ++ fromBio)).take 5

/-- A discovered influencer candidate (`app/data_sources/schemas.py`,
`DiscoveredInfluencer`). -/
structure DiscoveredInfluencer where
  username : String
  followers_count : Option ℤ := none
  discovery_source : String := "tagged_posts"
  discovery_context : String := ""
deriving DecidableEq, Repr

/-- The aggregated discovery outcome (`app/data_sources/schemas.py`,
`InfluencerDiscoveryResult`). -/
structure InfluencerDiscoveryResult where
  influencers : List DiscoveredInfluencer := []
  sources_attempted : List String := []
  sources_succeeded : List String := []
  sources_failed : List String := []
  errors : List String := []
deriving DecidableEq, Repr

/-- The inner merge loop of `InstagramDataSource.discover_influencers`:
walk the candidates a method returned, skipping the brand's own handle
and any username already seen in this run; returns the kept candidates
and the grown seen set. -/
def processFound (brand : String) :
    List String → List DiscoveredInfluencer →
      List DiscoveredInfluencer × List String
  | seen, [] => ([], seen)
  | seen, inf :: rest =>
    if inf.username = brand then processFound brand seen rest
    else if inf.username ∈ seen then processFound brand seen rest
    else
      let t := processFound brand (inf.username :: seen) rest
      (inf :: t.1, t.2)

/-- The outer loop of `InstagramDataSource.discover_influencers` over
the ordered discovery methods, each given with the outcome of awaiting
it (`Except.error` models the method raising). Every method name is
appended to `sources_attempted`; a success appends to
`sources_succeeded` and merges its candidates; a failure appends to
`sources_failed` and records `"{source_name}: {exc}"`, and the loop
continues with the next method. -/
def discoverLoop (brand : String) :
    List (String × Except String (List DiscoveredInfluencer)) →
      List String → InfluencerDiscoveryResult
  | [], _ => {}
  | (name, r) :: rest, seen =>
    match r with
    | .ok found =>
      let kept := processFound brand seen found
      let tail := discoverLoop brand rest kept.2
      { influencers := kept.1 ++ tail.influencers
        sources_attempted := name :: tail.sources_attempted
        sources_succeeded := name :: tail.sources_succeeded
        sources_failed := tail.sources_failed
        errors := tail.errors }
    | .error e =>
      let tail := discoverLoop brand rest seen
      { influencers := tail.influencers
        sources_attempted := name :: tail.sources_attempted
        sources_succeeded := tail.sources_succeeded
        sources_failed := name :: tail.sources_failed
        errors := (name ++ ": " ++ e) :: tail.errors }

/-- `InstagramDataSource.discover_influencers` (Apify path): the three
discovery methods in their fixed order, parametrised by each method's
outcome. -/
def discover_influencers (brand : String)
    (tagged related hashtag : Except String (List DiscoveredInfluencer)) :
    InfluencerDiscoveryResult :=
  discoverLoop brand
    [("tagged_posts", tagged), ("related_profiles", related),
     ("hashtag_search", hashtag)] []

/-- The candidate list a successful method outcome contributes; a failed
method contributes nothing. -/
def okCandidates (r : Except String (List DiscoveredInfluencer)) :
    List DiscoveredInfluencer :=
  match r with
  | .ok l => l
  | .error _ => []

/-- Spec-side first-source-wins deduplication: keep each username's
first occurrence in the merged candidate stream, dropping every later
candidate with the same username. -/
def firstSourceWins : List DiscoveredInfluencer → List DiscoveredInfluencer
  | [] => []
  | i :: rest => i :: firstSourceWins (rest.filter fun j => j.username ≠ i.username)
termination_by l => l.length
decreasing_by
  have := List.length_filter_le (fun j => decide (j.username ≠ i.username)) rest
  simp only [List.length_cons]
  omega

/-- The mock username pools of `mock_data._INFLUENCER_POOLS`. -/
def INFLUENCER_POOL_TAGGED : List String :=
  ["lifestyle.anna", "fitcoach_mike", "beauty.daily.pl", "travel.kate",
   "foodie_adventures", "style.with.emma", "wellness_guru", "tech.reviews.pl",
   "home.inspo.daily", "mama.blogger.cz"]

/-- The mock username pools of `mock_data._INFLUENCER_POOLS`. -/
def INFLUENCER_POOL_RELATED : List String :=
  ["brand.collab.hub", "digital.native.ro", "content.creator.pl",
   "social.media.pro", "influencer.daily", "creator.economy",
   "viral.content.cz", "trending.now.pl"]

/-- The mock username pools of `mock_data._INFLUENCER_POOLS`. -/
def INFLUENCER_POOL_HASHTAG : List String :=
  ["skincare.routine.daily", "ootd.polska", "healthyliving.cz",
   "makeup.tutorials.ro", "gym.motivation.pl", "vegan.eats.europe",
   "diy.home.decor", "book.club.cee", "pet.lovers.daily", "eco.living.pl"]

/-- The per-source loop of `mock_data.generate_mock_discovered_influencers`:
for each `(source, count, pool)`, filter the pool down to usernames that
are neither the brand handle nor already seen, draw
`min(count, len(available))` of them with the RNG (modelled by the
abstract `pick`, with its sampling properties assumed where needed), and
append the picked usernames to the seen set. `follower` abstracts the
RNG's follower-count draw. -/
def mockBatches (handle : String) (pick : List String → ℕ → List String)
    (follower : String → ℤ) :
    List String → List (String × ℕ × List String) → List DiscoveredInfluencer
  | _, [] => []
  | seen, (src, count, pool) :: rest =>
    let available := pool.filter fun u => decide (u ≠ handle) && decide (u ∉ seen)
    let picked := pick available (min count available.length)
    picked.map (fun u =>
      { username := u
        followers_count := some (follower u)
        discovery_source := src
        discovery_context := "Mock discovery via " ++ src ++ " for @" ++ handle })
      ++ mockBatches handle pick follower (seen ++ picked) rest

/-- `mock_data.generate_mock_discovered_influencers`: 8-15 influencers
drawn from the three pools (the RNG-derived per-source counts are the
abstract `c1 c2 c3`); all three sources are reported attempted and
succeeded, with no failures and no errors. -/
def generate_mock_discovered_influencers (handle : String)
    (pick : List String → ℕ → List String) (follower : String → ℤ)
    (c1 c2 c3 : ℕ) : InfluencerDiscoveryResult :=
  { influencers :=
      mockBatches handle pick follower []
        [("tagged_posts", c1, INFLUENCER_POOL_TAGGED),
         ("related_profiles", c2, INFLUENCER_POOL_RELATED),
         ("hashtag_search", c3, INFLUENCER_POOL_HASHTAG)]
    sources_attempted := ["tagged_posts", "related_profiles", "hashtag_search"]
    sources_succeeded := ["tagged_posts", "related_profiles", "hashtag_search"]
    sources_failed := []
    errors := [] }

/-- A sampling function behaving like `random.Random.sample`: it returns
distinct elements, all drawn from the given list. -/
def SampleLike (pick : List String → ℕ → List String) : Prop :=
  ∀ (l : List String) (n : ℕ), (pick l n).Nodup ∧ ∀ x ∈ pick l n, x ∈ l

/-- The set of hashtags an influencer used across their recent posts
(the `hashtags_a`/`hashtags_b` sets built by
`scoring.estimate_audience_overlap`). -/
def hashtagSet (p : InfluencerProfileResult) : Finset String :=
  ((p.recent_posts.map (·.hashtags)).join).toFinset

/-- Result record of `estimate_audience_overlap`. -/
structure OverlapResult where
  overlap_percentage : ℚ
  sample_size : ℤ
deriving DecidableEq, Repr

/-- `scoring.estimate_audience_overlap`: hashtag Jaccard similarity
(zero when either set is empty) weighted 0.6, follower-size proximity
`min/max` (zero unless both counts are positive) weighted 0.4, mapped
through `5 + base * 40`, rounded to one decimal and clamped to
`[5, 45]`; sample size `min(followers_a, followers_b, 10000)` floored
at 100. -/
def estimate_audience_overlap (profile_a profile_b : InfluencerProfileResult) :
    OverlapResult :=
  let hashtags_a := hashtagSet profile_a
  let hashtags_b := hashtagSet profile_b
  let jaccard : ℚ :=
    if hashtags_a ≠ ∅ ∧ hashtags_b ≠ ∅ then
      ((hashtags_a ∩ hashtags_b).card : ℚ) / ((hashtags_a ∪ hashtags_b).card : ℚ)
    else 0
  let followers_a : ℤ := profile_a.followers_count.getD 0
  let followers_b : ℤ := profile_b.followers_count.getD 0
  let size_similarity : ℚ :=
    if 0 < followers_a ∧ 0 < followers_b then
      ((min followers_a followers_b : ℤ) : ℚ) / ((max followers_a followers_b : ℤ) : ℚ)
    else 0
  let base_overlap := jaccard * 0.6 + size_similarity * 0.4
  let overlap_pct := pyRound 1 (5 + base_overlap * 40)
  let sample_size : ℤ := min (min followers_a followers_b) 10000
  { overlap_percentage := max 5 (min 45 overlap_pct)
    sample_size := max sample_size 100 }

/-- A profile with no posts (hence empty hashtag set) and zero
followers. -/
def profileNoTags : InfluencerProfileResult :=
  { username := "fresh.account", followers_count := some 0 }

/-- A profile with hashtag set `{aaa}` and 1000 followers. -/
def profileAaa : InfluencerProfileResult :=
  { username := "aaa.account", followers_count := some 1000,
    recent_posts := [{ post_id := "a1", post_type := "image", caption := "#aaa",
                       likes_count := 0, comments_count := 0, timestamp := none,
                       hashtags := ["aaa"] }] }

/-- A profile with hashtag set `{bbb}` and 200000 followers (200x the
followers of `profileAaa`). -/
def profileBbb : InfluencerProfileResult :=
  { username := "bbb.account", followers_count := some 200000,
    recent_posts := [{ post_id := "b1", post_type := "image", caption := "#bbb",
                       likes_count := 0, comments_count := 0, timestamp := none,
                       hashtags := ["bbb"] }] }

/-- The status fields of one `Audit` row, as touched by
`AuditOrchestrator._update_status`. -/
structure AuditState where
  status : String
  progress : ℤ
  current_step : Option String
  error_message : Option String
deriving DecidableEq, Repr

/-- `AuditOrchestrator._update_status`: overwrite status, progress and
current step; update the error message only when one is supplied. -/
def updateStatus (a : AuditState) (status : String) (progress : ℤ)
    (current_step : Option String) (error_message : Option String) :
    AuditState :=
  { status := status
    progress := progress
    current_step := current_step
    error_message :=
      if error_message.isSome then error_message else a.error_message }

/-- `audit_orchestrator.PIPELINE_STEPS`: `(status, step label, progress)`
table driving the run loop. -/
def PIPELINE_STEPS : List (String × String × ℤ) :=
  [("scraping_brand", "Scraping brand profile", 15),
   ("discovering_influencers", "Discovering associated influencers", 30),
   ("analyzing_influencers", "Analyzing influencer profiles", 55),
   ("scoring", "Calculating scores and metrics", 75),
   ("generating_narrative", "Generating audit narrative", 90),
   ("completed", "Audit complete", 100)]

/-- The `if/elif` handler dispatch inside `run_audit`: the five worker
steps have handlers, `completed` (or any other status) has none. -/
def stepHasWork (status : String) : Bool :=
  status = "scraping_brand" || status = "discovering_influencers" ||
    status = "analyzing_influencers" || status = "scoring" ||
    status = "generating_narrative"

/-- Outcome of one orchestrated run: the final audit-state, the final
world (everything the step handlers act on: brand rows, influencer
rows, the profile cache), the names of the steps whose handler was
invoked, and the failing step with its error when one raised. -/
structure RunResult (W : Type) where
  audit : AuditState
  world : W
  executed : List String
  failure : Option (String × String)

/-- The `for status, step_label, progress in PIPELINE_STEPS` loop of
`AuditOrchestrator.run_audit` with its `except` handler: before a step's
work the run is persisted as `(status, progress, label)`; a handler
raising `e` makes the handler of the surrounding `try` persist
`("failed", 0, None)` with the error message, and no further step
executes. Handlers (`stepFn`) act on the world only — the audit status
fields are written exclusively by `_update_status`. -/
def runSteps {W : Type} (stepFn : String → W → Except String W) :
    List (String × String × ℤ) → AuditState → W → RunResult W
  | [], a, w => { audit := a, world := w, executed := [], failure := none }
  | (status, label, progress) :: rest, a, w =>
    let a1 := updateStatus a status progress (some label) none
    if stepHasWork status then
      match stepFn status w with
      | .ok w1 =>
        let r := runSteps stepFn rest a1 w1
        { r with executed := status :: r.executed }
      | .error e =>
        { audit := updateStatus a1 "failed" 0 none (some e)
          world := w
          executed := [status]
          failure := some (status, e) }
    else
      runSteps stepFn rest a1 w

/-- `AuditOrchestrator.run_audit`, parametrised by the handlers'
behaviour on the world. -/
def run_audit {W : Type} (stepFn : String → W → Except String W)
    (a : AuditState) (w : W) : RunResult W :=
  runSteps stepFn PIPELINE_STEPS a w

/-- The five pipeline statuses that have step handlers, in pipeline
order. -/
def workStepNames : List String :=
  ["scraping_brand", "discovering_influencers", "analyzing_influencers",
   "scoring", "generating_narrative"]

/-- The `_profiles` cache lifecycle of
`AuditOrchestrator._calculate_scores`. The body of the method — the
per-influencer scoring loop, the pairwise-overlap writes, the
health-score assignment and the final `await self.db.commit()` —
contains no statement that modifies `self._profiles`, so it is
represented here by its outcome `body`. In the source,
`self._profiles.clear()` is the last statement of the method, executed
only after the commit returns, and the body is not wrapped in any
`try/finally`: an exception raised anywhere in it propagates to
`run_audit`'s handler with the cache left as it was. -/
def calculateScoresProfiles
    (profiles : List (String × InfluencerProfileResult))
    (body : Except String Unit) :
    List (String × InfluencerProfileResult) × Option String :=
  match body with
  | .ok _ => ([], none)
  | .error e => (profiles, some e)

/-- The seen-set loop of the code equals the spec's first-seen
deduplication of the not-yet-seen elements. -/
theorem dedupSeen_eq_dedupeFirstSeen :
    ∀ (l : List String) (seen : List String),
      dedupSeen seen l = dedupeFirstSeen (l.filter fun x => decide (x ∉ seen)) := by
  intro l
  induction l with
  | nil => intro seen; simp [dedupSeen, dedupeFirstSeen]
  | cons h t ih =>
    intro seen
    by_cases hs : h ∈ seen
    · simp [dedupSeen, hs, ih]
    · simp only [dedupSeen, if_neg hs, List.filter_cons]
      have : (decide (h ∉ seen)) = true := by simpa using hs
      rw [this]
      simp only [if_true, dedupeFirstSeen, ih]
      congr 1
      rw [List.filter_filter]
      congr 1
      apply List.filter_congr
      intro x _
      by_cases h1 : x = h <;> by_cases h2 : x ∈ seen <;> simp [h1, h2]

/-- The merge loop distributes over concatenated candidate streams,
threading the seen set through. -/
theorem processFound_append (brand : String) :
    ∀ (l1 l2 : List DiscoveredInfluencer) (seen : List String),
      processFound brand seen (l1 ++ l2) =
        ((processFound brand seen l1).1
          ++ (processFound brand (processFound brand seen l1).2 l2).1,
         (processFound brand (processFound brand seen l1).2 l2).2) := by
  intro l1
  induction l1 with
  | nil => intro l2 seen; simp [processFound]
  | cons i t ih =>
    intro l2 seen
    by_cases h1 : i.username = brand
    · simp [processFound, h1, ih]
    · by_cases h2 : i.username ∈ seen
      · simp [processFound, h1, h2, ih]
      · simp [processFound, h1, h2, ih]

/-- Every candidate kept by the merge loop is neither the brand handle
nor previously seen. -/
theorem processFound_mem (brand : String) :
    ∀ (l : List DiscoveredInfluencer) (seen : List String)
      (i : DiscoveredInfluencer), i ∈ (processFound brand seen l).1 →
        i.username ≠ brand ∧ i.username ∉ seen := by
  intro l
  induction l with
  | nil => intro seen i hi; simp [processFound] at hi
  | cons j t ih =>
    intro seen i hi
    by_cases h1 : j.username = brand
    · rw [processFound, if_pos h1] at hi
      exact ih seen i hi
    · by_cases h2 : j.username ∈ seen
      · rw [processFound, if_neg h1, if_pos h2] at hi
        exact ih seen i hi
      · rw [processFound, if_neg h1, if_neg h2] at hi
        rcases List.mem_cons.mp hi with rfl | hi
        · exact ⟨h1, h2⟩
        · have := ih (j.username :: seen) i hi
          exact ⟨this.1, fun hm => this.2 (List.mem_cons_of_mem _ hm)⟩

/-- The merge loop never keeps two candidates with the same username. -/
theorem processFound_nodup (brand : String) :
    ∀ (l : List DiscoveredInfluencer) (seen : List String),
      ((processFound brand seen l).1.map (·.username)).Nodup := by
  intro l
  induction l with
  | nil => intro seen; simp [processFound]
  | cons j t ih =>
    intro seen
    by_cases h1 : j.username = brand
    · rw [processFound, if_pos h1]; exact ih seen
    · by_cases h2 : j.username ∈ seen
      · rw [processFound, if_neg h1, if_pos h2]; exact ih seen
      · rw [processFound, if_neg h1, if_neg h2]
        simp only [List.map_cons, List.nodup_cons]
        refine ⟨?_, ih (j.username :: seen)⟩
        intro hmem
        rcases List.mem_map.mp hmem with ⟨i, hi, hu⟩
        exact (processFound_mem brand t _ i hi).2 (hu ▸ List.mem_cons_self _ _)

/-- The merge loop is the spec's first-source-wins deduplication of the
unseen, non-brand candidates. -/
theorem processFound_eq_firstSourceWins (brand : String) :
    ∀ (l : List DiscoveredInfluencer) (seen : List String),
      (processFound brand seen l).1 =
        firstSourceWins (l.filter fun j =>
          decide (j.username ≠ brand) && decide (j.username ∉ seen)) := by
  intro l
  induction l with
  | nil => intro seen; simp [processFound, firstSourceWins]
  | cons j t ih =>
    intro seen
    by_cases h1 : j.username = brand
    · rw [processFound, if_pos h1]
      simp only [List.filter_cons, h1]
      simp only [ne_eq, not_true_eq_false, decide_False, Bool.false_and,
        Bool.false_eq_true, if_false]
      exact ih seen
    · by_cases h2 : j.username ∈ seen
      · rw [processFound, if_neg h1, if_pos h2]
        have hb : (decide (j.username ≠ brand) && decide (j.username ∉ seen)) = false := by
          simp [h2]
        simp only [List.filter_cons, hb, Bool.false_eq_true, if_false]
        exact ih seen
      · rw [processFound, if_neg h1, if_neg h2]
        have hb : (decide (j.username ≠ brand) && decide (j.username ∉ seen)) = true := by
          simp [h1, h2]
        simp only [List.filter_cons, hb, if_true, firstSourceWins]
        simp only [List.cons.injEq, true_and]
        rw [ih (j.username :: seen)]
        congr 1
        rw [List.filter_filter]
        apply List.filter_congr
        intro x _
        by_cases hx1 : x.username = brand <;> by_cases hx2 : x.username ∈ seen <;>
          by_cases hx3 : x.username = j.username <;> simp [hx1, hx2, hx3]

/-- Candidates produced by the mock batch loop carry usernames that are
neither the handle nor already seen, without duplicates. -/
theorem mockBatches_nodup (handle : String)
    (pick : List String → ℕ → List String) (follower : String → ℤ)
    (hpick : SampleLike pick) :
    ∀ (batches : List (String × ℕ × List String)) (seen : List String),
      (∀ u ∈ (mockBatches handle pick follower seen batches).map (·.username),
        u ≠ handle ∧ u ∉ seen) ∧
      ((mockBatches handle pick follower seen batches).map (·.username)).Nodup := by
  intro batches
  induction batches with
  | nil => intro seen; simp [mockBatches]
  | cons b rest ih =>
    intro seen
    obtain ⟨src, count, pool⟩ := b
    have husers : ∀ l : List String,
        ((l.map fun u =>
          ({ username := u, followers_count := some (follower u),
             discovery_source := src,
             discovery_context := "Mock discovery via " ++ src ++ " for @" ++ handle } :
            DiscoveredInfluencer)).map (·.username)) = l := by
      intro l
      induction l with
      | nil => rfl
      | cons x xs ihx => simp only [List.map_cons, ihx]
    simp only [mockBatches, List.map_append, husers]
    constructor
    · intro u hu
      rcases List.mem_append.mp hu with hu1 | hu2
      · have hxa := (hpick _ _).2 u hu1
        have hf := List.mem_filter.mp hxa
        have hf2 := hf.2
        simp only [Bool.and_eq_true, decide_eq_true_eq] at hf2
        exact hf2
      · have h := (ih _).1 u hu2
        exact ⟨h.1, fun hm => h.2 (List.mem_append_left _ hm)⟩
    · refine List.nodup_append.mpr ⟨(hpick _ _).1, (ih _).2, ?_⟩
      intro u hu1 hu2
      exact ((ih _).1 u hu2).2 (List.mem_append_right _ hu1)

/-- The candidates of a discovery run are the merge-loop pass over the
concatenated candidates of the successful methods, in method order. -/
theorem discover_influencers_merge (brand : String)
    (tagged related hashtag : Except String (List DiscoveredInfluencer)) :
    (discover_influencers brand tagged related hashtag).influencers =
      (processFound brand []
        ((okCandidates tagged ++ okCandidates related) ++ okCandidates hashtag)).1 := by
  rcases tagged with e1 | l1 <;> rcases related with e2 | l2 <;>
    rcases hashtag with e3 | l3 <;>
      simp [discover_influencers, discoverLoop, okCandidates,
        processFound_append, processFound]

/-- **C3.** For every discovery run, whatever the method outcomes: the
attempted sources are exactly the three methods in order; a source is
attempted iff it succeeded or failed, and never both; the errors list
pairs up one `"{source}: {message}"` entry with each failed source, in
order; and the candidate list is the merge of the successful methods'
candidates alone, so one method's failure blocks neither the later
attempts nor any other method's contribution. -/
theorem discovery_error_accounting (brand : String)
    (tagged related hashtag : Except String (List DiscoveredInfluencer)) :
    (discover_influencers brand tagged related hashtag).sources_attempted =
        ["tagged_posts", "related_profiles", "hashtag_search"] ∧
    (∀ s, s ∈ (discover_influencers brand tagged related hashtag).sources_attempted ↔
        (s ∈ (discover_influencers brand tagged related hashtag).sources_succeeded ∨
         s ∈ (discover_influencers brand tagged related hashtag).sources_failed)) ∧
    (∀ s, ¬(s ∈ (discover_influencers brand tagged related hashtag).sources_succeeded ∧
            s ∈ (discover_influencers brand tagged related hashtag).sources_failed)) ∧
    List.Forall₂ (fun n err => ∃ m, err = n ++ ": " ++ m)
      (discover_influencers brand tagged related hashtag).sources_failed
      (discover_influencers brand tagged related hashtag).errors ∧
    (discover_influencers brand tagged related hashtag).influencers =
      (processFound brand []
        ((okCandidates tagged ++ okCandidates related) ++ okCandidates hashtag)).1 := by
  rcases tagged with e1 | l1 <;> rcases related with e2 | l2 <;>
    rcases hashtag with e3 | l3 <;>
    refine ⟨rfl, fun s => ?_, fun s => ?_, ?_,
      discover_influencers_merge brand _ _ _⟩ <;>
    first
      | (simp only [discover_influencers, discoverLoop]
         repeat
           first
             | exact List.Forall₂.nil
             | refine List.Forall₂.cons ⟨_, rfl⟩ ?_
         done)
      | (simp [discover_influencers, discoverLoop] <;> tauto)
      | (simp [discover_influencers, discoverLoop] <;> aesop)

/-- Small witness instance of `discovery_error_accounting` at concrete
method outcomes (one success, one failure, one empty success). -/
theorem discovery_error_accounting_witness :
    (discover_influencers "nike"
      (.ok [{ username := "anna" }]) (.error "timeout") (.ok [])).sources_attempted =
      ["tagged_posts", "related_profiles", "hashtag_search"] :=
  (discovery_error_accounting "nike"
    (.ok [{ username := "anna" }]) (.error "timeout") (.ok [])).1

/-- **C6.** In every discovery run — Apify path or mock path — the
brand's own handle never appears among the candidates and no username
appears twice; on the Apify path the kept candidates are exactly the
first-source-wins deduplication of the successful methods' candidate
streams in method order. The mock path is stated for any sampling
function with `random.sample`'s properties. -/
theorem discovery_dedup_first_source_wins :
    (∀ (brand : String)
       (tagged related hashtag : Except String (List DiscoveredInfluencer)),
      brand ∉ (discover_influencers brand tagged related hashtag).influencers.map
          (·.username) ∧
      ((discover_influencers brand tagged related hashtag).influencers.map
          (·.username)).Nodup ∧
      (discover_influencers brand tagged related hashtag).influencers =
        firstSourceWins
          (((okCandidates tagged ++ okCandidates related) ++ okCandidates hashtag).filter
            fun j => j.username ≠ brand)) ∧
    (∀ (handle : String) (pick : List String → ℕ → List String)
       (follower : String → ℤ) (c1 c2 c3 : ℕ), SampleLike pick →
      handle ∉ (generate_mock_discovered_influencers handle pick follower
          c1 c2 c3).influencers.map (·.username) ∧
      ((generate_mock_discovered_influencers handle pick follower
          c1 c2 c3).influencers.map (·.username)).Nodup) := by
  constructor
  · intro brand tagged related hashtag
    refine ⟨?_, ?_, ?_⟩
    · intro hmem
      rw [discover_influencers_merge] at hmem
      rcases List.mem_map.mp hmem with ⟨i, hi, hu⟩
      exact (processFound_mem brand _ [] i hi).1 hu
    · rw [discover_influencers_merge]
      exact processFound_nodup brand _ []
    · rw [discover_influencers_merge, processFound_eq_firstSourceWins]
      congr 1
      apply List.filter_congr
      intro x _
      simp
  · intro handle pick follower c1 c2 c3 hpick
    have h := mockBatches_nodup handle pick follower hpick
      [("tagged_posts", c1, INFLUENCER_POOL_TAGGED),
       ("related_profiles", c2, INFLUENCER_POOL_RELATED),
       ("hashtag_search", c3, INFLUENCER_POOL_HASHTAG)] []
    refine ⟨fun hmem => ?_, h.2⟩
    exact (h.1 handle hmem).1 rfl

/-- Witness for `discovery_dedup_first_source_wins`: its mock-path
hypothesis discharged by the duplicate-free sampler `List.dedup`, at a
handle that occurs in the tagged pool. -/
theorem discovery_dedup_first_source_wins_witness :
    "lifestyle.anna" ∉ (generate_mock_discovered_influencers "lifestyle.anna"
        (fun l _ => l.dedup) (fun _ => 7) 3 2 2).influencers.map (·.username) ∧
    ((generate_mock_discovered_influencers "lifestyle.anna"
        (fun l _ => l.dedup) (fun _ => 7) 3 2 2).influencers.map (·.username)).Nodup :=
  discovery_dedup_first_source_wins.2 "lifestyle.anna"
    (fun l _ => l.dedup) (fun _ => 7) 3 2 2
    (fun l _ => ⟨l.nodup_dedup, fun x hx => List.mem_dedup.mp hx⟩)

/-- The accumulating loop of `calculate_health_score` is a sum. -/
theorem foldl_add_map_sum {α : Type} (f : α → ℚ) :
    ∀ (l : List α) (a : ℚ), l.foldl (fun acc s => acc + f s) a = a + (l.map f).sum := by
  intro l
  induction l with
  | nil => simp
  | cons x xs ih => intro a; simp [List.foldl_cons, ih]; ring

/-- **C1.** The claim says every score output is clamped to its documented
range, in particular `calculate_health_score` always lands in `[0, 100]`.
The code applies no clamp after averaging: the well-typed adversarial
bundle `[{"engagement_rate": -1.0}]` (all other keys missing) produces
`-185.0`, outside `[0, 100]`, contradicting the function's own docstring
(`Returns: float 0-100`). -/
theorem health_score_not_clamped :
    calculate_health_score [{ engagement_rate := some (-1) }] = -185 ∧
    calculate_health_score [{ engagement_rate := some (-1) }] < 0 := by
  constructor <;> norm_num [calculate_health_score, healthIndividual, pyRound]

/-- **C5.** `calculate_health_score` returns `0.0` on the empty list; a
single bundle with fraud 0, content 1, audience 1 and engagement ≥ 0.10
scores exactly `100.0`; and in general the result is the mean over the
bundles of `(1-fraud)*0.30 + content*0.25 + audience*0.25 +
min(engagement/0.10, 1)*0.20`, multiplied by 100 and rounded to one
decimal place. -/
theorem health_score_formula :
    calculate_health_score [] = 0 ∧
    (∀ e : ℚ, 0.10 ≤ e →
      calculate_health_score
        [{ fraud_score := some 0, content_quality_score := some 1,
           audience_quality_score := some 1, engagement_rate := some e }] = 100) ∧
    (∀ l : List ScoreBundle, l ≠ [] →
      calculate_health_score l =
        pyRound 1 ((l.map fun s =>
            (1 - s.fraud_score.getD 0.5) * 0.30
            + s.content_quality_score.getD 0 * 0.25
            + s.audience_quality_score.getD 0 * 0.25
            + min (s.engagement_rate.getD 0 / 0.10) 1 * 0.20).sum
          / (l.length : ℚ) * 100)) := by
  refine ⟨by norm_num [calculate_health_score], ?_, ?_⟩
  · intro e he
    have hmin : min (e / 0.10) 1 = (1 : ℚ) := by
      rw [min_eq_right]
      rw [le_div_iff₀ (by norm_num : (0 : ℚ) < 0.10)]
      linarith
    simp only [calculate_health_score, healthIndividual, Option.getD_some,
      List.isEmpty_cons, List.foldl_cons, List.foldl_nil, List.length_cons,
      List.length_nil, hmin]
    norm_num [pyRound]
  · intro l hl
    have hne : l.isEmpty = false := by
      cases l with
      | nil => exact absurd rfl hl
      | cons x xs => rfl
    simp only [calculate_health_score, hne, Bool.false_eq_true, if_false,
      foldl_add_map_sum, zero_add, healthIndividual]

/-- **C8.** Hashtag extraction: `extract("nike.poland", None)` is
`["nike", "poland"]`; `extract("ab", None)` is `[]` (segments of length
≤ 2 are dropped); and for every handle and bio the result has at most 5
entries and equals the first-seen-order deduplication of the long-enough
handle segments followed by the bio's `#word` tokens, truncated to 5. -/
theorem hashtag_extraction_spec :
    extract_hashtags "nike.poland" none = ["nike", "poland"] ∧
    extract_hashtags "ab" none = [] ∧
    ∀ (handle : String) (bio : Option String),
      (extract_hashtags handle bio).length ≤ 5 ∧
      extract_hashtags handle bio =
        (dedupeFirstSeen
          ((((splitSeps [] handle.data).filter fun p => 2 < p.length).map
              fun p => (p.map Char.toLower).asString)
            ++ (match bio with
                | none => []
                | some b =>
                  (findTagRuns b.data none).map fun h =>
                    (h.map Char.toLower).asString))).take 5 := by
  refine ⟨by decide, by decide, ?_⟩
  intro handle bio
  constructor
  · exact List.length_take_le 5 _
  · simp [extract_hashtags, dedupSeen_eq_dedupeFirstSeen]

/-- **C10.** `estimate_audience_overlap` is symmetric in its two
profiles: both the overlap percentage and the sample size are unchanged
when the arguments are swapped, so storing one estimate per unordered
pair of influencers is well-defined. -/
theorem estimate_audience_overlap_comm (a b : InfluencerProfileResult) :
    estimate_audience_overlap a b = estimate_audience_overlap b a := by
  by_cases ha : hashtagSet a = ∅ <;> by_cases hb : hashtagSet b = ∅ <;>
    simp [estimate_audience_overlap, ha, hb, Finset.inter_comm, Finset.union_comm,
      min_comm, max_comm, and_comm]

/-- **C9 counterexample.** As stated the claim is false: the pair
`(profileNoTags, profileNoTags)` has identical (empty) hashtag sets and
equal (zero) follower counts yet scores overlap 5.0, while the pair
`(profileAaa, profileBbb)` has disjoint hashtag sets and follower counts
200x apart yet scores overlap 5.1, because the size-similarity term
`0.4 * (1000/200000) * 40 = 0.08` rounds `5.08` up to `5.1`. -/
theorem overlap_ordering_counterexample :
    hashtagSet profileNoTags = hashtagSet profileNoTags ∧
    profileNoTags.followers_count.getD 0 = profileNoTags.followers_count.getD 0 ∧
    Disjoint (hashtagSet profileAaa) (hashtagSet profileBbb) ∧
    100 * min (profileAaa.followers_count.getD 0) (profileBbb.followers_count.getD 0) ≤
      max (profileAaa.followers_count.getD 0) (profileBbb.followers_count.getD 0) ∧
    (estimate_audience_overlap profileNoTags profileNoTags).overlap_percentage <
      (estimate_audience_overlap profileAaa profileBbb).overlap_percentage := by
  refine ⟨rfl, rfl, by decide, by decide, ?_⟩
  have h5 : (estimate_audience_overlap profileNoTags profileNoTags).overlap_percentage = 5 := by
    simp [estimate_audience_overlap, hashtagSet, profileNoTags]
    norm_num [pyRound]
  have h51 : (estimate_audience_overlap profileAaa profileBbb).overlap_percentage = 51 / 10 := by
    have h1 : (hashtagSet profileAaa ∩ hashtagSet profileBbb).card = 0 := by decide
    have h2 : (hashtagSet profileAaa ∪ hashtagSet profileBbb).card = 2 := by decide
    have h3 : hashtagSet profileAaa ≠ ∅ := by decide
    have h4 : hashtagSet profileBbb ≠ ∅ := by decide
    simp only [estimate_audience_overlap, h1, h2, h3, h4, and_self, if_true,
      ne_eq, not_false_eq_true]
    norm_num [profileAaa, profileBbb, pyRound]
  rw [h5, h51]
  norm_num

/-- **C9 (amended).** For two profiles with identical *non-empty*
hashtag sets and equal *positive* follower counts, the overlap estimate
(which is then exactly 45, the top of the range) is ≥ the estimate for
any two profiles with disjoint hashtag sets and wildly different
follower counts. Without the non-emptiness/positivity strengthening the
claim fails, see `overlap_ordering_counterexample`. -/
theorem overlap_identical_ge_disjoint (a b c d : InfluencerProfileResult)
    (hset : hashtagSet a = hashtagSet b) (hne : hashtagSet a ≠ ∅)
    (hfol : a.followers_count.getD 0 = b.followers_count.getD 0)
    (hpos : 0 < a.followers_count.getD 0)
    (hdisj : Disjoint (hashtagSet c) (hashtagSet d))
    (hwild : 100 * min (c.followers_count.getD 0) (d.followers_count.getD 0) ≤
      max (c.followers_count.getD 0) (d.followers_count.getD 0)) :
    (estimate_audience_overlap c d).overlap_percentage ≤
      (estimate_audience_overlap a b).overlap_percentage := by
  have hab : (estimate_audience_overlap a b).overlap_percentage = 45 := by
    have hcardq : (((hashtagSet a).card : ℕ) : ℚ) ≠ 0 := by
      have hpos' : 0 < (hashtagSet a).card :=
        Finset.card_pos.mpr (Finset.nonempty_iff_ne_empty.mpr hne)
      exact_mod_cast hpos'.ne'
    have hfq : ((a.followers_count.getD 0 : ℤ) : ℚ) ≠ 0 := by
      exact_mod_cast hpos.ne'
    simp only [estimate_audience_overlap, ← hset, ← hfol, Finset.inter_self,
      Finset.union_self, min_self, max_self]
    rw [if_pos ⟨hne, hne⟩, if_pos ⟨hpos, hpos⟩, div_self hcardq, div_self hfq]
    norm_num [pyRound]
  rw [hab]
  simp only [estimate_audience_overlap]
  exact max_le (by norm_num) (min_le_left _ _)

/-- Witness for `overlap_identical_ge_disjoint`: the identical pair
`(profileAaa, profileAaa)` against the disjoint, 200x-apart pair
`(profileAaa, profileBbb)`. -/
theorem overlap_identical_ge_disjoint_witness :
    (estimate_audience_overlap profileAaa profileBbb).overlap_percentage ≤
      (estimate_audience_overlap profileAaa profileAaa).overlap_percentage :=
  overlap_identical_ge_disjoint profileAaa profileAaa profileAaa profileBbb rfl
    (by decide) rfl (by decide) (by decide) (by decide)

/-- **C2.** If any step handler of `run_audit` raises, the run ends
with status `failed`, progress 0, no current step and the error message
recorded, and the steps executed are exactly the pipeline prefix up to
and including the failing step — in particular a failure during
`analyzing_influencers` means the `scoring` and `generating_narrative`
handlers never run. -/
theorem run_audit_failure_semantics {W : Type}
    (stepFn : String → W → Except String W) (a : AuditState) (w : W)
    (name e : String)
    (h : (run_audit stepFn a w).failure = some (name, e)) :
    (run_audit stepFn a w).audit.status = "failed" ∧
    (run_audit stepFn a w).audit.progress = 0 ∧
    (run_audit stepFn a w).audit.current_step = none ∧
    (run_audit stepFn a w).audit.error_message = some e ∧
    (run_audit stepFn a w).executed =
      (workStepNames.takeWhile fun m => m ≠ name) ++ [name] ∧
    (name = "analyzing_influencers" →
      "scoring" ∉ (run_audit stepFn a w).executed ∧
      "generating_narrative" ∉ (run_audit stepFn a w).executed) := by
  rcases h1 : stepFn "scraping_brand" w with e1 | w1
  · have hrun : run_audit stepFn a w =
        { audit := ⟨"failed", 0, none, some e1⟩, world := w,
          executed := ["scraping_brand"],
          failure := some ("scraping_brand", e1) } := by
      simp [run_audit, PIPELINE_STEPS, runSteps, stepHasWork, updateStatus, h1]
    rw [hrun] at h ⊢
    simp only [Option.some.injEq, Prod.mk.injEq] at h
    obtain ⟨rfl, rfl⟩ := h
    refine ⟨rfl, rfl, rfl, rfl, rfl, by simp⟩
  rcases h2 : stepFn "discovering_influencers" w1 with e2 | w2
  · have hrun : run_audit stepFn a w =
        { audit := ⟨"failed", 0, none, some e2⟩, world := w1,
          executed := ["scraping_brand", "discovering_influencers"],
          failure := some ("discovering_influencers", e2) } := by
      simp [run_audit, PIPELINE_STEPS, runSteps, stepHasWork, updateStatus, h1, h2]
    rw [hrun] at h ⊢
    simp only [Option.some.injEq, Prod.mk.injEq] at h
    obtain ⟨rfl, rfl⟩ := h
    refine ⟨rfl, rfl, rfl, rfl, rfl, by simp⟩
  rcases h3 : stepFn "analyzing_influencers" w2 with e3 | w3
  · have hrun : run_audit stepFn a w =
        { audit := ⟨"failed", 0, none, some e3⟩, world := w2,
          executed := ["scraping_brand", "discovering_influencers",
            "analyzing_influencers"],
          failure := some ("analyzing_influencers", e3) } := by
      simp [run_audit, PIPELINE_STEPS, runSteps, stepHasWork, updateStatus,
        h1, h2, h3]
    rw [hrun] at h ⊢
    simp only [Option.some.injEq, Prod.mk.injEq] at h
    obtain ⟨rfl, rfl⟩ := h
    refine ⟨rfl, rfl, rfl, rfl, rfl, fun _ => by simp⟩
  rcases h4 : stepFn "scoring" w3 with e4 | w4
  · have hrun : run_audit stepFn a w =
        { audit := ⟨"failed", 0, none, some e4⟩, world := w3,
          executed := ["scraping_brand", "discovering_influencers",
            "analyzing_influencers", "scoring"],
          failure := some ("scoring", e4) } := by
      simp [run_audit, PIPELINE_STEPS, runSteps, stepHasWork, updateStatus,
        h1, h2, h3, h4]
    rw [hrun] at h ⊢
    simp only [Option.some.injEq, Prod.mk.injEq] at h
    obtain ⟨rfl, rfl⟩ := h
    refine ⟨rfl, rfl, rfl, rfl, rfl, by simp⟩
  rcases h5 : stepFn "generating_narrative" w4 with e5 | w5
  · have hrun : run_audit stepFn a w =
        { audit := ⟨"failed", 0, none, some e5⟩, world := w4,
          executed := ["scraping_brand", "discovering_influencers",
            "analyzing_influencers", "scoring", "generating_narrative"],
          failure := some ("generating_narrative", e5) } := by
      simp [run_audit, PIPELINE_STEPS, runSteps, stepHasWork, updateStatus,
        h1, h2, h3, h4, h5]
    rw [hrun] at h ⊢
    simp only [Option.some.injEq, Prod.mk.injEq] at h
    obtain ⟨rfl, rfl⟩ := h
    refine ⟨rfl, rfl, rfl, rfl, rfl, by simp⟩
  · exfalso
    have hrun : (run_audit stepFn a w).failure = none := by
      simp [run_audit, PIPELINE_STEPS, runSteps, stepHasWork, updateStatus,
        h1, h2, h3, h4, h5]
    rw [hrun] at h
    exact Option.noConfusion h

/-- Witness for `run_audit_failure_semantics`: a run over the trivial
world whose `analyzing_influencers` handler raises ends in status
`failed`. -/
theorem run_audit_failure_semantics_witness :
    (run_audit
      (fun status (_ : Unit) =>
        if status = "analyzing_influencers" then .error "boom" else .ok ())
      ⟨"pending", 0, none, none⟩ ()).audit.status = "failed" ∧
    "scoring" ∉ (run_audit
      (fun status (_ : Unit) =>
        if status = "analyzing_influencers" then .error "boom" else .ok ())
      ⟨"pending", 0, none, none⟩ ()).executed := by
  have h := run_audit_failure_semantics
    (fun status (_ : Unit) =>
      if status = "analyzing_influencers" then .error "boom" else .ok ())
    ⟨"pending", 0, none, none⟩ () "analyzing_influencers" "boom" (by decide)
  exact ⟨h.1, (h.2.2.2.2.2 rfl).1⟩

/-- **C7.** The claim says the `_profiles` cache is empty at the end of
the scoring step on both the success and the failure path. The code
clears it only after a successful commit: when the scoring step's body
raises (here: a failing final commit with the profile for
`lifestyle.anna` cached), the cache still holds that profile, so it does
leak into a later run on the same orchestrator instance. The success
path does clear the cache. -/
theorem scoring_cache_cleared_only_on_success :
    (calculateScoresProfiles [("lifestyle.anna", profileAaa)] (.ok ())).1 = [] ∧
    (calculateScoresProfiles [("lifestyle.anna", profileAaa)]
        (.error "db commit failed")).1 = [("lifestyle.anna", profileAaa)] ∧
    (calculateScoresProfiles [("lifestyle.anna", profileAaa)]
        (.error "db commit failed")).1 ≠ [] := by
  refine ⟨rfl, rfl, by simp [calculateScoresProfiles]⟩

/-- Witness for the hypothesis-bearing parts of `health_score_formula`:
a concrete bundle with engagement exactly `0.10` scores `100.0`, and the
general formula instantiated at a one-element list. -/
theorem health_score_formula_witness :
    calculate_health_score
      [{ fraud_score := some 0, content_quality_score := some 1,
         audience_quality_score := some 1, engagement_rate := some 0.10 }] = 100 ∧
    calculate_health_score [({} : ScoreBundle)] =
      pyRound 1 (([({} : ScoreBundle)].map fun s =>
          (1 - s.fraud_score.getD 0.5) * 0.30
          + s.content_quality_score.getD 0 * 0.25
          + s.audience_quality_score.getD 0 * 0.25
          + min (s.engagement_rate.getD 0 / 0.10) 1 * 0.20).sum
        / (([({} : ScoreBundle)].length : ℕ) : ℚ) * 100) :=
  ⟨health_score_formula.2.1 0.10 (by norm_num),
   health_score_formula.2.2 [{}] (by simp)⟩

/-- **C4.** `calculate_engagement_metrics` is all-zero when the profile
has no posts or zero followers, and otherwise returns the rounded means
of likes and comments and the rounded engagement rate
`(mean likes + mean comments) / followers`. -/
theorem engagement_metrics_spec (p : InfluencerProfileResult) :
    ((p.recent_posts = [] ∨ p.followers_count.getD 0 = 0) →
      calculate_engagement_metrics p =
        { engagement_rate := 0, avg_likes := 0, avg_comments := 0 }) ∧
    (p.recent_posts ≠ [] → p.followers_count.getD 0 ≠ 0 →
      calculate_engagement_metrics p =
        { engagement_rate := pyRound 6
            (((((p.recent_posts.map (·.likes_count)).sum : ℤ) : ℚ) / (p.recent_posts.length : ℚ)
              + (((p.recent_posts.map (·.comments_count)).sum : ℤ) : ℚ) / (p.recent_posts.length : ℚ))
              / ((p.followers_count.getD 0 : ℤ) : ℚ))
          avg_likes := pyRound 2
            ((((p.recent_posts.map (·.likes_count)).sum : ℤ) : ℚ) / (p.recent_posts.length : ℚ))
          avg_comments := pyRound 2
            ((((p.recent_posts.map (·.comments_count)).sum : ℤ) : ℚ) / (p.recent_posts.length : ℚ)) }) := by
  constructor
  · intro h
    have hcond : p.recent_posts.isEmpty = true ∨ p.followers_count.getD 0 = 0 := by
      rcases h with h | h
      · exact Or.inl (by simp [h])
      · exact Or.inr h
    simp only [calculate_engagement_metrics, if_pos hcond]
  · intro h1 h2
    have hcond : ¬(p.recent_posts.isEmpty = true ∨ p.followers_count.getD 0 = 0) := by
      push_neg
      exact ⟨by simpa using h1, h2⟩
    simp only [calculate_engagement_metrics, if_neg hcond]

/-- Witness for `engagement_metrics_spec`: the empty profile maps to
all-zero metrics, and a profile with two posts (10/1 and 20/3
likes/comments) and 100 followers has averages 15 and 2 and engagement
rate 0.17. -/
theorem engagement_metrics_spec_witness :
    calculate_engagement_metrics { username := "empty" } =
      { engagement_rate := 0, avg_likes := 0, avg_comments := 0 } ∧
    calculate_engagement_metrics
      { username := "anna",
        followers_count := some 100,
        recent_posts :=
          [{ post_id := "p1", post_type := "image", caption := "", likes_count := 10,
             comments_count := 1, timestamp := none, hashtags := [] },
           { post_id := "p2", post_type := "image", caption := "", likes_count := 20,
             comments_count := 3, timestamp := none, hashtags := [] }] } =
      { engagement_rate := 0.17, avg_likes := 15, avg_comments := 2 } := by
  constructor
  · exact (engagement_metrics_spec { username := "empty" }).1 (Or.inl rfl)
  · rw [(engagement_metrics_spec _).2 (by simp) (by norm_num)]
    norm_num [pyRound]

end AiAgency
